import Mathlib

set_option maxRecDepth 100000

/-!
Shallow embedding of the `scripting` crate (src/lib.rs, src/tty.rs,
src/tty/password.rs): termios flag transforms, the `Term` session type,
keystroke decoding, and the `Password` secure input buffer, together with
theorems settling the specification claims about them.

Machine integers are modelled as `Nat`; the Linux `tcflag_t` is 32 bits
wide, so the Rust expression `x &= !m` on flag words is modelled as
`x &&& (0xFFFFFFFF ^^^ m)`.  Fallible OS calls (tcsetattr, writes, reads)
are modelled by environments that fix each call's outcome, and device
interaction is recorded in an explicit event trace.
-/

/-! ## Linux termios flag constants (values from libc, x86-64 Linux) -/

def IXON : Nat := 0x400
def ICRNL : Nat := 0x100
def BRKINT : Nat := 0x2
def INPCK : Nat := 0x10
def ISTRIP : Nat := 0x20
def INLCR : Nat := 0x40
def IUTF8 : Nat := 0x4000
def OPOST : Nat := 0x1
def ECHO : Nat := 0x8
def ECHONL : Nat := 0x40
def ICANON : Nat := 0x2
def IEXTEN : Nat := 0x8000
def ISIG : Nat := 0x1
def CS8 : Nat := 0x30

/-- All 32 bits of a Linux `tcflag_t` set. -/
def tcflagMask : Nat := 0xFFFFFFFF

/-- The Rust flag update `x &= !m` on a 32-bit `tcflag_t`. -/
def clearFlags (m x : Nat) : Nat := x &&& (tcflagMask ^^^ m)

/-- The Rust flag update `x |= m`. -/
def setFlags (m x : Nat) : Nat := x ||| m

/-- The `libc::termios` struct as used by the crate: the four flag words
and the `c_cc` entries the code touches (`VMIN`, `VTIME`); all remaining
bytes of the struct are collected in `c_cc_other`, which no Mode Transform
of the crate ever writes. -/
structure Termios where
  c_iflag : Nat
  c_oflag : Nat
  c_cflag : Nat
  c_lflag : Nat
  c_cc_vmin : Nat
  c_cc_vtime : Nat
  c_cc_other : Nat
deriving DecidableEq, Repr

/-! ## Mode Transforms (src/tty.rs), acting on a working `Termios` copy -/

/-- Source `Term::raw_mode` body (tty.rs:167-175). -/
def raw_mode (t : Termios) : Termios :=
  { t with
    c_iflag := clearFlags (IXON ||| ICRNL ||| BRKINT ||| INPCK ||| ISTRIP ||| INLCR) t.c_iflag
    c_lflag := clearFlags (ECHO ||| ICANON ||| IEXTEN ||| ISIG) t.c_lflag
    c_oflag := clearFlags OPOST t.c_oflag
    c_cflag := clearFlags CS8 t.c_cflag }

/-- Source `Term::cooked_mode` body (tty.rs:181-187). -/
def cooked_mode (t : Termios) : Termios :=
  { t with
    c_iflag := setFlags IUTF8 t.c_iflag
    c_lflag := setFlags (ECHO ||| ECHONL ||| ICANON) t.c_lflag }

/-- Source `Term::disable_output_processing` body (tty.rs:190-195). -/
def disable_output_processing (t : Termios) : Termios :=
  { t with c_oflag := clearFlags OPOST t.c_oflag }

/-- Source `Term::enable_output_processing` body (tty.rs:204-209). -/
def enable_output_processing (t : Termios) : Termios :=
  { t with c_oflag := setFlags OPOST t.c_oflag }

/-- Source `Term::enable_echo` body (tty.rs:212-217). -/
def enable_echo (t : Termios) : Termios :=
  { t with c_lflag := setFlags (ECHO ||| ECHONL) t.c_lflag }

/-- Source `Term::disable_echo` body (tty.rs:220-225). -/
def disable_echo (t : Termios) : Termios :=
  { t with c_lflag := clearFlags (ECHO ||| ECHONL) t.c_lflag }

/-- Source `Term::password_mode` body (tty.rs:228-234): clear `ECHO`,
then set `ECHONL | ICANON`. -/
def password_mode (t : Termios) : Termios :=
  { t with c_lflag := setFlags (ECHONL ||| ICANON) (clearFlags ECHO t.c_lflag) }

/-- Source `Term::disable_flow_control` body (tty.rs:236-241). -/
def disable_flow_control (t : Termios) : Termios :=
  { t with c_iflag := clearFlags IXON t.c_iflag }

/-- Source `Term::enable_flow_control` body (tty.rs:243-248). -/
def enable_flow_control (t : Termios) : Termios :=
  { t with c_iflag := setFlags IXON t.c_iflag }

/-- Source `Term::input_timeout` body (tty.rs:252-264); the argument is the
requested `Duration` in whole milliseconds (`Duration::as_millis`).
The Rust `match` is `0 => 1, 1..=255 => tenths, _ => 255`. -/
def input_timeout (millis : Nat) (t : Termios) : Termios :=
  let tenths := millis / 100
  let v : Nat := if tenths = 0 then 1 else if tenths ≤ 255 then tenths else 255
  { t with c_cc_vmin := 0, c_cc_vtime := v }

/-- Source `Term::disable_input_timeout` body (tty.rs:266-272). -/
def disable_input_timeout (t : Termios) : Termios :=
  { t with c_cc_vmin := 1, c_cc_vtime := 0 }

/-! ## Terminal session (`Term`, tty.rs:97-101) -/

/-- Source `SetAction` (tty.rs:22-30). -/
inductive SetAction where
  | TCSAFLUSH
  | TCSANOW
  | TCSADRAIN
deriving DecidableEq, Repr

/-- The `Term` session state: `t: (termios, termios) // (original, working copy)`.
The I/O handles carry no state relevant to the claims. -/
structure Term where
  original : Termios
  working : Termios
deriving DecidableEq, Repr

/-- Source `Term::new` (tty.rs:137-144): `t: (t.clone(), t)` from the captured
device snapshot. -/
def Term.new (t : Termios) : Term :=
  { original := t, working := t }

/-- Source `Term::save` (tty.rs:152-156): re-captures a live snapshot `t` and sets
`self.t = (t.clone(), t)`. -/
def Term.save (_tm : Term) (t : Termios) : Term :=
  { original := t, working := t }

/-- Source `Term::with_termios` (tty.rs:159-161): `f(&mut self.t.1)` — the
function acts on the working copy only. -/
def Term.with_termios (f : Termios → Termios) (tm : Term) : Term :=
  { tm with working := f tm.working }

/-- Source `Term::set` (tty.rs:274-276): the snapshot handed to `tcsetattr` is
`&self.t.1`, the working copy. -/
def Term.set_applied (tm : Term) : Termios :=
  tm.working

/-- Source `Term::reset` (tty.rs:278-281): `self.t.1 = self.t.0.clone()` then
`self.set(action)`.  Returns the new session state and the snapshot that
`set` hands to the device. -/
def Term.reset (tm : Term) : Term × Termios :=
  let tm2 := { tm with working := tm.original }
  (tm2, Term.set_applied tm2)

/-- The Mode Transforms callable on a `Term`, as an inductive so that
claim C5 can quantify over arbitrary sequences of them.
`withTermios` carries the caller-supplied mutation function. -/
inductive Transform where
  | raw
  | cooked
  | disableOutputProcessing
  | enableOutputProcessing
  | enableEcho
  | disableEcho
  | password
  | disableFlowControl
  | enableFlowControl
  | inputTimeout (millis : Nat)
  | disableInputTimeout
  | withTermios (f : Termios → Termios)

/-- The `Termios` function each `Transform` performs on the working copy. -/
def Transform.toFun : Transform → Termios → Termios
  | .raw => raw_mode
  | .cooked => cooked_mode
  | .disableOutputProcessing => disable_output_processing
  | .enableOutputProcessing => enable_output_processing
  | .enableEcho => enable_echo
  | .disableEcho => disable_echo
  | .password => password_mode
  | .disableFlowControl => disable_flow_control
  | .enableFlowControl => enable_flow_control
  | .inputTimeout ms => input_timeout ms
  | .disableInputTimeout => disable_input_timeout
  | .withTermios f => f

/-- Every Mode Transform method is `self.with_termios(body)`. -/
def Term.apply_transform (tr : Transform) (tm : Term) : Term :=
  Term.with_termios tr.toFun tm

/-- A chained sequence of Mode Transform calls (fluent composition). -/
def Term.apply_transforms (ts : List Transform) (tm : Term) : Term :=
  ts.foldl (fun a tr => Term.apply_transform tr a) tm

/-! ## Keystrokes (src/lib.rs:21-64) -/

/-- Source `Keystroke([u8; 4])`, with the four array entries as fields. -/
structure Keystroke where
  b0 : Nat
  b1 : Nat
  b2 : Nat
  b3 : Nat
deriving DecidableEq, Repr

/-- Source `Keystroke::new`: `Self([0; 4])`. -/
def Keystroke.new : Keystroke := ⟨0, 0, 0, 0⟩

/-- Source `Keystroke::is_empty`: `self.0 == [0, 0, 0, 0]`. -/
def Keystroke.is_empty (k : Keystroke) : Bool :=
  decide (k = ⟨0, 0, 0, 0⟩)

/-- Source `Keystroke::is_ctrl_c`: `self.0 == [3, 0, 0, 0]`. -/
def Keystroke.is_ctrl_c (k : Keystroke) : Bool :=
  decide (k = ⟨3, 0, 0, 0⟩)

/-- Source `Keystroke::is_esc`: `self.0 == [27, 0, 0, 0]`. -/
def Keystroke.is_esc (k : Keystroke) : Bool :=
  decide (k = ⟨27, 0, 0, 0⟩)

/-- Source `Keystroke::is_esc_code`: `self.0[0] == 27 && self.0[1] == b'['`. -/
def Keystroke.is_esc_code (k : Keystroke) : Bool :=
  decide (k.b0 = 27) && decide (k.b1 = 91)

/-- Source `Keystroke::is_enter`: `self.0[0] == 13` — only the first byte is
inspected. -/
def Keystroke.is_enter (k : Keystroke) : Bool :=
  decide (k.b0 = 13)

/-- Source `Keystroke::as_char`: `char::from_u32(u32::from_ne_bytes(self.0))`,
little-endian on the target platform; `none` when the value is not a
Unicode scalar value. -/
def Keystroke.as_char (k : Keystroke) : Option Nat :=
  let c := k.b0 + 256 * k.b1 + 65536 * k.b2 + 16777216 * k.b3
  if c < 0xD800 ∨ (0xE000 ≤ c ∧ c ≤ 0x10FFFF) then some c else none

/-- In `get_raw_keystroke`, one read fills a zeroed 4-byte array; bytes
the read did not deliver stay zero. -/
def Keystroke.fromRead (bs : List Nat) : Keystroke :=
  ⟨bs.getD 0 0, bs.getD 1 0, bs.getD 2 0, bs.getD 3 0⟩

/-! ## Device events and call environments -/

/-- Observable interactions with the terminal device and streams, in
program order. -/
inductive Ev where
  | tcsetattr (action : SetAction) (t : Termios)
  | writeOut
  | flushOut
  | readBytes
  | readLineCall
deriving DecidableEq, Repr

/-- Outcomes of the external calls made by `keystroke` (lib.rs:66-71):
the raw-mode `tcsetattr`, the single `read`, and the `tcsetattr` inside
`reset`. -/
structure KeystrokeEnv where
  set_result : Except Nat Unit
  read_result : Except Nat (List Nat)
  reset_result : Except Nat Unit

/-- Source `keystroke` (lib.rs:66-71):
`term.raw_mode().set(TCSAFLUSH)?;`
`let keystroke = get_raw_keystroke(term);`
`term.reset(TCSANOW)?;`
`keystroke`
Returns the function result, the event trace, and the final session. -/
def keystroke (env : KeystrokeEnv) (tm : Term) : Except Nat Keystroke × List Ev × Term :=
  let tm1 := Term.with_termios raw_mode tm
  let ev1 : Ev := .tcsetattr .TCSAFLUSH (Term.set_applied tm1)
  match env.set_result with
  | .error e => (.error e, [ev1], tm1)
  | .ok _ =>
    let kres : Except Nat Keystroke :=
      match env.read_result with
      | .error e => .error e
      | .ok bs => .ok (Keystroke.fromRead bs)
    let tm2 := (Term.reset tm1).1
    let ev3 : Ev := .tcsetattr .TCSANOW (Term.reset tm1).2
    match env.reset_result with
    | .error e => (.error e, [ev1, .readBytes, ev3], tm2)
    | .ok _ => (kres, [ev1, .readBytes, ev3], tm2)

/-- Outcomes of the external calls made by `Term::prompt_for_password`
(tty.rs:295-303): the password-mode `tcsetattr`, the prompt `write!`, the
output flush, the `Password::read_line`, and the `tcsetattr` inside
`reset`. -/
structure PromptEnv where
  set_result : Except Nat Unit
  write_result : Except Nat Unit
  flush_result : Except Nat Unit
  read_line_result : Except Nat Unit
  reset_result : Except Nat Unit

/-- Source `Term::prompt_for_password` (tty.rs:295-303):
`self.password_mode().set(TCSAFLUSH)?;`
`let mut pw = Password::new();`
`write!(self, ...)?;`
`self.fd_out.flush()?;`
`pw.read_line(&mut self.fd_in)?;`
`self.reset(TCSAFLUSH)?;`
`Ok(pw)`
Every `?` is an early return: the trace and session state at each failure
point are exactly those accumulated so far. -/
def prompt_for_password (env : PromptEnv) (tm : Term) : Except Nat Unit × List Ev × Term :=
  let tm1 := Term.with_termios password_mode tm
  let ev1 : Ev := .tcsetattr .TCSAFLUSH (Term.set_applied tm1)
  match env.set_result with
  | .error e => (.error e, [ev1], tm1)
  | .ok _ =>
    match env.write_result with
    | .error e => (.error e, [ev1, .writeOut], tm1)
    | .ok _ =>
      match env.flush_result with
      | .error e => (.error e, [ev1, .writeOut, .flushOut], tm1)
      | .ok _ =>
        match env.read_line_result with
        | .error e => (.error e, [ev1, .writeOut, .flushOut, .readLineCall], tm1)
        | .ok _ =>
          let tm2 := (Term.reset tm1).1
          let ev5 : Ev := .tcsetattr .TCSAFLUSH (Term.reset tm1).2
          match env.reset_result with
          | .error e => (.error e, [ev1, .writeOut, .flushOut, .readLineCall, ev5], tm2)
          | .ok _ => (.ok (), [ev1, .writeOut, .flushOut, .readLineCall, ev5], tm2)

/-! ## Secure input buffer (`Password`, src/tty/password.rs) -/

/-- Source `PASSWORD_BUFFER_LEN` (password.rs:7). -/
def PASSWORD_BUFFER_LEN : Nat := 512

/-- Source `Password::new` (password.rs:29-33): a heap buffer of
`PASSWORD_BUFFER_LEN` zero bytes. -/
def Password.new : List Nat := List.replicate PASSWORD_BUFFER_LEN 0

/-- Source `CStr::from_bytes_until_nul`: the bytes strictly before the first NUL,
or `none` when the buffer holds no NUL at all (in which case
`Password::as_cstr` panics via `expect`). -/
def bytesUntilNul : List Nat → Option (List Nat)
  | [] => none
  | b :: rest => if b = 0 then some [] else (bytesUntilNul rest).map (fun s => b :: s)

/-- Source `Password::as_cstr` (password.rs:39-42); `none` models the `expect`
panic on a buffer without a terminating NUL. -/
def Password.as_cstr (buf : List Nat) : Option (List Nat) :=
  bytesUntilNul buf

/-- Rust `str::from_utf8` validity (RFC 3629 well-formedness). -/
def contByte (b : Nat) : Bool := 0x80 ≤ b && b ≤ 0xBF

/-- UTF-8 well-formedness of a byte list, as checked by
`CStr::to_str`. -/
def validUtf8 : List Nat → Bool
  | [] => true
  | b :: rest =>
    if b ≤ 0x7F then validUtf8 rest
    else if 0xC2 ≤ b && b ≤ 0xDF then
      match rest with
      | c1 :: r => contByte c1 && validUtf8 r
      | [] => false
    else if b = 0xE0 then
      match rest with
      | c1 :: c2 :: r => (0xA0 ≤ c1 && c1 ≤ 0xBF) && contByte c2 && validUtf8 r
      | _ => false
    else if b = 0xED then
      match rest with
      | c1 :: c2 :: r => (0x80 ≤ c1 && c1 ≤ 0x9F) && contByte c2 && validUtf8 r
      | _ => false
    else if 0xE1 ≤ b && b ≤ 0xEF then
      match rest with
      | c1 :: c2 :: r => contByte c1 && contByte c2 && validUtf8 r
      | _ => false
    else if b = 0xF0 then
      match rest with
      | c1 :: c2 :: c3 :: r => (0x90 ≤ c1 && c1 ≤ 0xBF) && contByte c2 && contByte c3 && validUtf8 r
      | _ => false
    else if 0xF1 ≤ b && b ≤ 0xF3 then
      match rest with
      | c1 :: c2 :: c3 :: r => contByte c1 && contByte c2 && contByte c3 && validUtf8 r
      | _ => false
    else if b = 0xF4 then
      match rest with
      | c1 :: c2 :: c3 :: r => (0x80 ≤ c1 && c1 ≤ 0x8F) && contByte c2 && contByte c3 && validUtf8 r
      | _ => false
    else false

/-- Source `Password::as_str` (password.rs:44-46): `self.as_cstr().to_str()`;
`none` models both the `as_cstr` panic and a UTF-8 error. -/
def Password.as_str (buf : List Nat) : Option (List Nat) :=
  (Password.as_cstr buf).bind (fun bs => if validUtf8 bs then some bs else none)

/-- Source `Password::as_bytes` (password.rs:73-75):
`self.as_cstr().to_bytes()`. -/
def Password.as_bytes (buf : List Nat) : Option (List Nat) :=
  Password.as_cstr buf

/-- Source `Password::as_mut_slice` (password.rs:86-88):
`self.buf.as_mut_slice()` — the whole buffer, final byte included. -/
def Password.as_mut_slice (buf : List Nat) : List Nat :=
  buf

/-- Writing the byte list `bs` into `buf` starting at position `i`
(the effect of a `read` call delivering `bs` into `&mut buf[i..]`). -/
def writeAt : List Nat → Nat → List Nat → List Nat
  | buf, _, [] => buf
  | buf, i, b :: bs => writeAt (buf.set i b) (i + 1) bs

/-- One scheduled outcome of `fd.read`: an I/O error, or the bytes the
source hands over (the model splits a chunk that exceeds the free
capacity, since `read` never writes past the slice it is given). -/
abbrev ReadStep := Except Nat (List Nat)

/-- The loop of `Password::read_line` (password.rs:50-70).  `buf` is
`self.buf`, `index` the running write position, and the list of
`ReadStep`s resolves each successive `fd.read` call.  Returns the final
buffer, the final `index`, and the part of the source left unread.
`let buf = &mut self.buf[index..PASSWORD_BUFFER_LEN - 1];`
`let n = fd.read(buf)?;`
`if n == 0 { break; }`
`index += n;`
`if self.buf[index - 1] == b'\n' { self.buf[index - 1] = 0; break; }`
`if index >= PASSWORD_BUFFER_LEN - 1 { break; }` -/
def read_line_aux : List Nat → Nat → List ReadStep → Except Nat (List Nat × Nat × List ReadStep)
  | buf, index, [] => .ok (buf, index, [])
  | _buf, _index, .error e :: _rest => .error e
  | buf, index, .ok ch :: rest =>
    let cap := (PASSWORD_BUFFER_LEN - 1) - index
    let n := min ch.length cap
    if n = 0 then
      .ok (buf, index, if ch.isEmpty then rest else .ok ch :: rest)
    else
      let buf2 := writeAt buf index (ch.take n)
      let index2 := index + n
      let rem := ch.drop n
      let rest2 := if rem.isEmpty then rest else .ok rem :: rest
      if buf2.getD (index2 - 1) 0 = 10 then
        .ok (buf2.set (index2 - 1) 0, index2, rest2)
      else if PASSWORD_BUFFER_LEN - 1 ≤ index2 then
        .ok (buf2, index2, rest2)
      else
        read_line_aux buf2 index2 rest

/-- Source `Password::read_line` (password.rs:50-70) on a buffer `buf`, with the
source's read outcomes scheduled by `steps`.  (When the loop recurses, the
current chunk was consumed whole: a partially consumed chunk forces
`index = PASSWORD_BUFFER_LEN - 1`, which exits the loop.) -/
def Password.read_line (buf : List Nat) (steps : List ReadStep) :
    Except Nat (List Nat × Nat × List ReadStep) :=
  read_line_aux buf 0 steps

/-- The observable steps of `impl Drop for Password` (password.rs:90-97)
followed by the `Box` deallocation. -/
inductive DropEvent where
  | zeroize
  | compilerFenceSeqCst
  | hardwareFenceSeqCst
  | deallocate
deriving DecidableEq, Repr

/-- Source `impl Drop for Password` (password.rs:90-97): `self.buf.fill(0)`, then
`compiler_fence(SeqCst)`, then `fence(SeqCst)`; the backing memory is
released afterwards.  Returns the buffer contents at release time and the
ordered event trace. -/
def Password.dropRun (buf : List Nat) : List Nat × List DropEvent :=
  (buf.map (fun _ => 0),
   [DropEvent.zeroize, DropEvent.compilerFenceSeqCst,
    DropEvent.hardwareFenceSeqCst, DropEvent.deallocate])

/-- A representative terminal snapshot (typical cooked-mode Linux flags)
used for concrete instances. -/
def sampleTermios : Termios :=
  { c_iflag := 0x4500
    c_oflag := 0x1
    c_cflag := 0x30
    c_lflag := 0x800B
    c_cc_vmin := 1
    c_cc_vtime := 0
    c_cc_other := 42 }

/-- Success test for the result of `read_line`. -/
def isOkE {ε α : Type} : Except ε α → Bool
  | .ok _ => true
  | .error _ => false

/-- The buffer obtained from a fresh `Password` by overwriting every byte
with 1 through the slice returned by `as_mut_slice` (claim C9's direct
buffer access). -/
def c9buf : List Nat :=
  writeAt (Password.as_mut_slice Password.new) 0 (List.replicate PASSWORD_BUFFER_LEN 1)

/-! ## Helper lemmas -/

/-- A 32-bit `x & !m` clears every flag `f` whose bits lie inside `m`
(stated via the computable side condition on the literals). -/
theorem clearFlags_land_eq_zero (m f x : Nat) (h : (tcflagMask ^^^ m) &&& f = 0) :
    clearFlags m x &&& f = 0 := by
  refine Nat.eq_of_testBit_eq fun i => ?_
  have h' := congrArg (fun n => n.testBit i) h
  simp only [Nat.testBit_land, Nat.zero_testBit] at h'
  simp only [clearFlags, Nat.testBit_land, Nat.zero_testBit]
  cases hx : Nat.testBit x i <;> cases hm : Nat.testBit (tcflagMask ^^^ m) i <;>
    cases hf : Nat.testBit f i <;> simp_all

/-- Mode Transform sequences never write the original snapshot. -/
theorem apply_transforms_original (ts : List Transform) (tm : Term) :
    (Term.apply_transforms ts tm).original = tm.original := by
  induction ts generalizing tm with
  | nil => rfl
  | cons tr ts ih =>
    show (Term.apply_transforms ts (Term.apply_transform tr tm)).original = tm.original
    rw [ih]
    rfl

/-! ## Claim theorems -/

/-- Claim C5: after any sequence of Mode Transform calls on a `Term`
created by `new` (or refreshed by `save`), the original snapshot is
untouched, `set` hands the device the working copy and never the
original, and `reset` assigns `working := original` and hands the device
a snapshot bit-for-bit equal to the one captured at `new`/`save` time. -/
theorem c5_reset_round_trip (t0 : Termios) (tmAny : Term) (ts : List Transform) :
    (Term.apply_transforms ts (Term.new t0)).original = t0 ∧
    (∀ tm : Term, Term.set_applied tm = tm.working) ∧
    (Term.reset (Term.apply_transforms ts (Term.new t0))).2 = t0 ∧
    (Term.reset (Term.apply_transforms ts (Term.new t0))).1.working = t0 ∧
    (Term.reset (Term.apply_transforms ts (Term.new t0))).1.original = t0 ∧
    (Term.apply_transforms ts (Term.save tmAny t0)).original = t0 ∧
    (Term.reset (Term.apply_transforms ts (Term.save tmAny t0))).2 = t0 := by
  have h1 := apply_transforms_original ts (Term.new t0)
  have h2 := apply_transforms_original ts (Term.save tmAny t0)
  exact ⟨h1, fun _ => rfl, h1, h1, h1, h2, h2⟩

/-- Claim C7: `input_timeout` zeroes the minimum-bytes-per-read control
character and stores the requested duration in deciseconds, rounded down
and clamped to `[1, 255]`; `disable_input_timeout` restores
`VMIN = 1, VTIME = 0`. -/
theorem c7_input_timeout_clamps (d : Nat) (t : Termios) :
    (input_timeout d t).c_cc_vmin = 0 ∧
    (input_timeout d t).c_cc_vtime = max 1 (min (d / 100) 255) ∧
    1 ≤ (input_timeout d t).c_cc_vtime ∧
    (input_timeout d t).c_cc_vtime ≤ 255 ∧
    (input_timeout 0 t).c_cc_vtime = 1 ∧
    (input_timeout 50000 t).c_cc_vtime = 255 ∧
    (input_timeout 1500 t).c_cc_vtime = 15 ∧
    (disable_input_timeout t).c_cc_vmin = 1 ∧
    (disable_input_timeout t).c_cc_vtime = 0 := by
  have hv : (input_timeout d t).c_cc_vtime = max 1 (min (d / 100) 255) := by
    show (if d / 100 = 0 then 1 else if d / 100 ≤ 255 then d / 100 else 255) = _
    split
    · omega
    · split <;> omega
  refine ⟨rfl, hv, ?_, ?_, rfl, rfl, rfl, rfl, rfl⟩ <;> rw [hv] <;> omega

/-- Claim C8: the raw Mode Transform clears, in the working snapshot,
software flow control (IXON), carriage-return translation (ICRNL), break
handling (BRKINT), parity checking (INPCK), strip-high-bit (ISTRIP),
local echo (ECHO), canonical input (ICANON), extended input processing
(IEXTEN), signal keystrokes (ISIG), output post-processing (OPOST) and
the 8-bit character-size flag (CS8) — and touches only the working copy,
never the device or the original snapshot. -/
theorem c8_raw_mode_clears (t : Termios) (tm : Term) :
    (raw_mode t).c_iflag &&& IXON = 0 ∧
    (raw_mode t).c_iflag &&& ICRNL = 0 ∧
    (raw_mode t).c_iflag &&& BRKINT = 0 ∧
    (raw_mode t).c_iflag &&& INPCK = 0 ∧
    (raw_mode t).c_iflag &&& ISTRIP = 0 ∧
    (raw_mode t).c_lflag &&& ECHO = 0 ∧
    (raw_mode t).c_lflag &&& ICANON = 0 ∧
    (raw_mode t).c_lflag &&& IEXTEN = 0 ∧
    (raw_mode t).c_lflag &&& ISIG = 0 ∧
    (raw_mode t).c_oflag &&& OPOST = 0 ∧
    (raw_mode t).c_cflag &&& CS8 = 0 ∧
    (Term.apply_transform .raw tm).original = tm.original ∧
    (Term.apply_transform .raw tm).working = raw_mode tm.working := by
  refine ⟨?_, ?_, ?_, ?_, ?_, ?_, ?_, ?_, ?_, ?_, ?_, rfl, rfl⟩ <;>
    exact clearFlags_land_eq_zero _ _ _ (by decide)

/-- Claim C2: destroying a `Password` overwrites every byte of the
C = 512 byte buffer with zero, then issues the compiler fence and the
hardware fence, in that order, before the backing memory is released; no
non-zero byte survives. -/
theorem c2_drop_zeroizes (buf : List Nat) (b : Nat) :
    ((Password.dropRun buf).1.all (fun x => x == 0)) = true ∧
    (Password.dropRun buf).1.length = buf.length ∧
    (Password.dropRun (List.replicate PASSWORD_BUFFER_LEN b)).1 = List.replicate 512 0 ∧
    (Password.dropRun buf).2 =
      [DropEvent.zeroize, DropEvent.compilerFenceSeqCst,
       DropEvent.hardwareFenceSeqCst, DropEvent.deallocate] ∧
    PASSWORD_BUFFER_LEN = 512 := by
  refine ⟨?_, ?_, ?_, rfl, rfl⟩
  · simp [Password.dropRun, List.all_eq_true]
  · simp [Password.dropRun]
  · show (List.replicate PASSWORD_BUFFER_LEN b).map (fun _ => 0) = List.replicate 512 0
    rw [List.map_replicate]
    rfl

/-- Claim C1 counterexample: with the prompt write, flush succeeding and
`read_line` failing with error 5, `prompt_for_password` propagates the
error with exactly one `tcsetattr` in its trace — the password-mode
commit — so the revert is never attempted, and the session is left with a
working copy that differs from the original (password mode still in
effect). -/
theorem c1_counterexample :
    prompt_for_password ⟨.ok (), .ok (), .ok (), .error 5, .ok ()⟩ (Term.new sampleTermios) =
      (.error 5,
       [Ev.tcsetattr .TCSAFLUSH (password_mode sampleTermios), .writeOut, .flushOut,
        .readLineCall],
       { original := sampleTermios, working := password_mode sampleTermios }) ∧
    password_mode sampleTermios ≠ sampleTermios := by
  exact ⟨rfl, by decide⟩

/-- Claim C1 amended: `prompt_for_password` reverts the terminal only on
the all-success path; once password mode is committed, a failure of the
prompt write, the flush, or `read_line` returns that error immediately
with no revert attempted and the terminal left in password mode. -/
theorem c1_amended (env : PromptEnv) (tm : Term) :
    (env.set_result = .ok () → env.write_result = .ok () → env.flush_result = .ok () →
      env.read_line_result = .ok () →
      prompt_for_password env tm =
        ((match env.reset_result with | .error e => .error e | .ok _ => .ok ()),
         [Ev.tcsetattr .TCSAFLUSH (password_mode tm.working), .writeOut, .flushOut,
          .readLineCall, Ev.tcsetattr .TCSAFLUSH tm.original],
         { original := tm.original, working := tm.original })) ∧
    (∀ e, env.set_result = .ok () → env.write_result = .error e →
      prompt_for_password env tm =
        (.error e, [Ev.tcsetattr .TCSAFLUSH (password_mode tm.working), .writeOut],
         Term.with_termios password_mode tm)) ∧
    (∀ e, env.set_result = .ok () → env.write_result = .ok () → env.flush_result = .error e →
      prompt_for_password env tm =
        (.error e, [Ev.tcsetattr .TCSAFLUSH (password_mode tm.working), .writeOut, .flushOut],
         Term.with_termios password_mode tm)) ∧
    (∀ e, env.set_result = .ok () → env.write_result = .ok () → env.flush_result = .ok () →
      env.read_line_result = .error e →
      prompt_for_password env tm =
        (.error e,
         [Ev.tcsetattr .TCSAFLUSH (password_mode tm.working), .writeOut, .flushOut,
          .readLineCall],
         Term.with_termios password_mode tm)) := by
  obtain ⟨s, w, f, r, rs⟩ := env
  refine ⟨?_, ?_, ?_, ?_⟩
  · rintro rfl rfl rfl rfl
    cases rs <;> rfl
  · rintro e rfl rfl
    rfl
  · rintro e rfl rfl rfl
    rfl
  · rintro e rfl rfl rfl rfl
    rfl

/-- Claim C1 amended, at a concrete input: the all-success run commits
password mode, writes, flushes, reads the line, and then reverts with the
flush policy, ending with the working copy restored to the original. -/
theorem c1_amended_witness :
    prompt_for_password ⟨.ok (), .ok (), .ok (), .ok (), .ok ()⟩ (Term.new sampleTermios) =
      (.ok (),
       [Ev.tcsetattr .TCSAFLUSH (password_mode sampleTermios), .writeOut, .flushOut,
        .readLineCall, Ev.tcsetattr .TCSAFLUSH sampleTermios],
       { original := sampleTermios, working := sampleTermios }) := by
  exact (c1_amended ⟨.ok (), .ok (), .ok (), .ok (), .ok ()⟩ (Term.new sampleTermios)).1
    rfl rfl rfl rfl

/-- Claim C4 counterexample: when the single read succeeds (byte 97) but
the reverting `tcsetattr` fails with error 7, `keystroke` returns the
revert's error instead of the read's result, so the read's result is not
propagated. -/
theorem c4_counterexample :
    (keystroke ⟨.ok (), .ok [97], .error 7⟩ (Term.new sampleTermios)).1 = .error 7 ∧
    (keystroke ⟨.ok (), .ok [97], .error 7⟩ (Term.new sampleTermios)).1 ≠
      .ok (Keystroke.fromRead [97]) := by
  refine ⟨rfl, fun h => ?_⟩
  exact Except.noConfusion h

/-- Claim C4 amended: after a successful raw-mode commit (flush policy),
`keystroke` performs exactly one read and then unconditionally attempts
the revert to the original mode (now policy) whatever the read returned;
if the revert succeeds the read's result is propagated, and if the revert
fails its error is returned in place of the read's result. -/
theorem c4_amended (env : KeystrokeEnv) (tm : Term) :
    (env.set_result = .ok () →
      (keystroke env tm).2.1 =
        [Ev.tcsetattr .TCSAFLUSH (raw_mode tm.working), .readBytes,
         Ev.tcsetattr .TCSANOW tm.original] ∧
      ((keystroke env tm).2.2).working = tm.original ∧
      (env.reset_result = .ok () →
        (keystroke env tm).1 = env.read_result.map Keystroke.fromRead) ∧
      (∀ e, env.reset_result = .error e → (keystroke env tm).1 = .error e)) ∧
    (∀ e, env.set_result = .error e →
      keystroke env tm =
        (.error e, [Ev.tcsetattr .TCSAFLUSH (raw_mode tm.working)],
         Term.with_termios raw_mode tm)) := by
  obtain ⟨s, r, rs⟩ := env
  constructor
  · rintro rfl
    refine ⟨?_, ?_, ?_, ?_⟩
    · cases rs <;> rfl
    · cases rs <;> rfl
    · rintro rfl
      cases r <;> rfl
    · rintro e rfl
      rfl
  · rintro e rfl
    rfl

/-- Claim C4 amended, at a concrete input: an all-success run returns the
keystroke built from the read bytes, with the trace raw-commit, read,
revert. -/
theorem c4_amended_witness :
    (keystroke ⟨.ok (), .ok [97], .ok ()⟩ (Term.new sampleTermios)).1 =
      .ok (Keystroke.fromRead [97]) ∧
    (keystroke ⟨.ok (), .ok [97], .ok ()⟩ (Term.new sampleTermios)).2.1 =
      [Ev.tcsetattr .TCSAFLUSH (raw_mode sampleTermios), .readBytes,
       Ev.tcsetattr .TCSANOW sampleTermios] := by
  have h := (c4_amended ⟨.ok (), .ok [97], .ok ()⟩ (Term.new sampleTermios)).1 rfl
  exact ⟨h.2.2.1 rfl, h.1⟩

/-- Positions below the write start are untouched by `writeAt`. -/
theorem writeAt_getD_lt (bs : List Nat) :
    ∀ (buf : List Nat) (i k d : Nat), k < i → (writeAt buf i bs).getD k d = buf.getD k d := by
  induction bs with
  | nil => intro buf i k d _; rfl
  | cons b bs ih =>
    intro buf i k d hk
    show (writeAt (buf.set i b) (i + 1) bs).getD k d = buf.getD k d
    rw [ih _ _ _ _ (Nat.lt_succ_of_lt hk)]
    simp [List.getD_eq_getElem?_getD, List.getElem?_set_ne (Nat.ne_of_gt hk)]

/-- Positions at or beyond the written span are untouched by `writeAt`. -/
theorem writeAt_getD_ge (bs : List Nat) :
    ∀ (buf : List Nat) (i k d : Nat), i + bs.length ≤ k →
      (writeAt buf i bs).getD k d = buf.getD k d := by
  induction bs with
  | nil => intro buf i k d _; rfl
  | cons b bs ih =>
    intro buf i k d hk
    simp only [List.length_cons] at hk
    show (writeAt (buf.set i b) (i + 1) bs).getD k d = buf.getD k d
    rw [ih _ _ _ _ (by omega)]
    simp [List.getD_eq_getElem?_getD, List.getElem?_set_ne (by omega : i ≠ k)]

/-- Within the written span, `writeAt` stores exactly the bytes given. -/
theorem writeAt_getD_mem (bs : List Nat) :
    ∀ (buf : List Nat) (i j d : Nat), j < bs.length → i + bs.length ≤ buf.length →
      (writeAt buf i bs).getD (i + j) d = bs.getD j d := by
  induction bs with
  | nil =>
    intro buf i j d hj _
    exact absurd hj (by simp)
  | cons b bs ih =>
    intro buf i j d hj hlen
    simp only [List.length_cons] at hj hlen
    show (writeAt (buf.set i b) (i + 1) bs).getD (i + j) d = (b :: bs).getD j d
    cases j with
    | zero =>
      rw [writeAt_getD_lt bs (buf.set i b) (i + 1) (i + 0) d (by omega)]
      have hi : i < buf.length := by omega
      simp [List.getD_eq_getElem?_getD, List.getElem?_set_self hi]
    | succ j' =>
      have harr : i + (j' + 1) = (i + 1) + j' := by omega
      rw [harr, ih (buf.set i b) (i + 1) j' d (by omega) (by simp; omega)]
      rfl

/-- Claim C3 amended: a single-chunk source offering more than 511 bytes
and no newline makes `read_line` return `Ok`, silently truncating: the
first 511 bytes are written, the write position stops at 511, the rest of
the source is left unread, and the buffer's final byte is still NUL. -/
theorem c3_amended (ch : List Nat) (hlen : 511 < ch.length) (hnl : ∀ b ∈ ch, b ≠ 10) :
    Password.read_line Password.new [Except.ok ch] =
      .ok (writeAt Password.new 0 (ch.take 511), 511, [Except.ok (ch.drop 511)]) ∧
    (writeAt Password.new 0 (ch.take 511)).getD 511 0 = 0 := by
  have hpw : Password.new.length = 512 := by
    simp [Password.new, PASSWORD_BUFFER_LEN]
  have htake : (ch.take 511).length = 511 := by
    rw [List.length_take]
    omega
  have h510 : (writeAt Password.new 0 (ch.take 511)).getD 510 0 = ch.getD 510 0 := by
    have h := writeAt_getD_mem (ch.take 511) Password.new 0 510 0
      (by omega) (by omega)
    rw [Nat.zero_add] at h
    rw [h, List.getD_eq_getElem?_getD, List.getD_eq_getElem?_getD,
      List.getElem?_take_of_lt (by omega)]
  have hne : (writeAt Password.new 0 (ch.take 511)).getD 510 0 ≠ 10 := by
    rw [h510]
    have hmem : ch.getD 510 0 ∈ ch := by
      rw [List.getD_eq_getElem?_getD, List.getElem?_eq_getElem (by omega)]
      exact List.getElem_mem _
    exact hnl _ hmem
  have hlast : (writeAt Password.new 0 (ch.take 511)).getD 511 0 = 0 := by
    rw [writeAt_getD_ge (ch.take 511) Password.new 0 511 0 (by omega)]
    simp [Password.new, PASSWORD_BUFFER_LEN]
  refine ⟨?_, hlast⟩
  show read_line_aux Password.new 0 [Except.ok ch] = _
  rw [read_line_aux]
  have hcap : (PASSWORD_BUFFER_LEN - 1) - 0 = 511 := rfl
  rw [hcap]
  have hmin : min ch.length 511 = 511 := Nat.min_eq_right (by omega)
  rw [hmin]
  rw [if_neg (by omega : ¬(511 : Nat) = 0), Nat.zero_add]
  rw [if_neg hne]
  rw [if_pos (by omega : PASSWORD_BUFFER_LEN - 1 ≤ 511)]
  have hdrop : (ch.drop 511).isEmpty = false := by
    rw [List.isEmpty_eq_false]
    intro h
    rw [List.drop_eq_nil_iff] at h
    omega
  rw [hdrop]
  rfl

/-- Claim C3 amended, at a concrete input: 513 bytes of `A` with no
newline are accepted with `Ok`, 511 bytes stored and 2 left unread. -/
theorem c3_amended_witness :
    Password.read_line Password.new [Except.ok (List.replicate 513 65)] =
      .ok (writeAt Password.new 0 ((List.replicate 513 65).take 511), 511,
           [Except.ok ((List.replicate 513 65).drop 511)]) ∧
    (writeAt Password.new 0 ((List.replicate 513 65).take 511)).getD 511 0 = 0 :=
  c3_amended (List.replicate 513 65) (by simp)
    (fun b hb => by rw [List.eq_of_mem_replicate hb]; omega)

/-- Claim C6: `read_line` keeps reading into the free capacity until the
bytes delivered so far end in a newline; for a source delivering
`"hello\n"` the newline is overwritten in place with NUL (the buffer
stays 512 bytes long, nothing is appended), the secret reads back as
exactly `"hello"`, and a subsequent chunk `"world"` is left unread.  The
second run shows the same input delivered across three reads, stopping as
soon as the newline arrives. -/
theorem c6_read_line_hello :
    Password.read_line Password.new
        [Except.ok [104, 101, 108, 108, 111, 10], Except.ok [119, 111, 114, 108, 100]] =
      .ok ([104, 101, 108, 108, 111, 0] ++ List.replicate 506 0, 6,
           [Except.ok [119, 111, 114, 108, 100]]) ∧
    Password.as_bytes ([104, 101, 108, 108, 111, 0] ++ List.replicate 506 0) =
      some [104, 101, 108, 108, 111] ∧
    Password.as_str ([104, 101, 108, 108, 111, 0] ++ List.replicate 506 0) =
      some [104, 101, 108, 108, 111] ∧
    ([104, 101, 108, 108, 111, 0] ++ List.replicate 506 0).length = PASSWORD_BUFFER_LEN ∧
    Password.read_line Password.new
        [Except.ok [104, 101, 108], Except.ok [108, 111, 10], Except.ok [119]] =
      .ok ([104, 101, 108, 108, 111, 0] ++ List.replicate 506 0, 6, [Except.ok [119]]) := by
  exact ⟨rfl, rfl, rfl, rfl, rfl⟩

/-- Claim C3 counterexample: a source offering 600 bytes (all 65) with no
newline makes `read_line` return `Ok` — the first 511 bytes are stored,
the final NUL survives, and the remaining 89 bytes stay unread — rather
than any `InvalidData` error. -/
theorem c3_counterexample :
    Password.read_line Password.new [Except.ok (List.replicate 600 65)] =
      .ok (List.replicate 511 65 ++ [0], 511, [Except.ok (List.replicate 89 65)]) ∧
    isOkE (Password.read_line Password.new [Except.ok (List.replicate 600 65)]) = true := by
  exact ⟨rfl, rfl⟩

/-- Claim C9: `as_mut_slice` exposes the whole 512-byte buffer, final byte
included; overwriting every byte with 1 through it yields a buffer with
no NUL terminator, on which `as_cstr` — and therefore `as_str` and
`as_bytes` — panics (modelled as `none`) instead of returning a value. -/
theorem c9_as_mut_slice_full_buffer :
    (Password.as_mut_slice Password.new).length = 512 ∧
    Password.as_mut_slice Password.new = Password.new ∧
    c9buf.length = 512 ∧
    c9buf.getD 511 0 = 1 ∧
    Password.as_cstr c9buf = none ∧
    Password.as_str c9buf = none ∧
    Password.as_bytes c9buf = none := by
  have hb : c9buf = List.replicate 512 1 := by decide
  refine ⟨rfl, rfl, ?_, ?_, ?_, ?_, ?_⟩ <;> rw [hb] <;> rfl

/-- Claim C10: `is_enter` looks only at the first byte (any 4-byte value
starting with 13 counts as enter, e.g. `[13, 10, 0, 0]`), while
`is_ctrl_c`, `is_esc` and `is_empty` hold exactly on the full values
`[3,0,0,0]`, `[27,0,0,0]` and `[0,0,0,0]` respectively. -/
theorem c10_keystroke_classification (b1 b2 b3 : Nat) (k : Keystroke) :
    Keystroke.is_enter ⟨13, b1, b2, b3⟩ = true ∧
    Keystroke.is_enter ⟨13, 10, 0, 0⟩ = true ∧
    (Keystroke.is_enter k = true ↔ k.b0 = 13) ∧
    (Keystroke.is_ctrl_c k = true ↔ k = ⟨3, 0, 0, 0⟩) ∧
    (Keystroke.is_esc k = true ↔ k = ⟨27, 0, 0, 0⟩) ∧
    (Keystroke.is_empty k = true ↔ k = ⟨0, 0, 0, 0⟩) ∧
    Keystroke.is_ctrl_c ⟨3, 10, 0, 0⟩ = false ∧
    Keystroke.is_esc ⟨27, 10, 0, 0⟩ = false ∧
    Keystroke.is_empty ⟨0, 10, 0, 0⟩ = false := by
  refine ⟨rfl, rfl, ?_, ?_, ?_, ?_, by decide, by decide, by decide⟩ <;>
    simp [Keystroke.is_enter, Keystroke.is_ctrl_c, Keystroke.is_esc, Keystroke.is_empty]
